import Mathlib

/-!
Verification of the budget-tracker repository's specification.

The repository ships the React client (src/frontend, src/unnamed); the
FastAPI backend that implements the aggregation engine, the CSV import
mapper and budget creation is not present, so those operations are
modelled from the specification (each such definition says so in its doc
comment).  The client-side auth store and the HTTP request helper are
embedded directly from the source files.
-/

namespace BudgetTracker

/-! ## Data model (types from src/unnamed/part_000) -/

/-- A calendar month (a budget's `month` field is a first-of-month date). -/
structure Month where
  year : Nat
  month : Nat
deriving DecidableEq

/-- A calendar date, as carried by a transaction. -/
structure Date where
  year : Nat
  month : Nat
  day : Nat
deriving DecidableEq

/-- Category record (src/unnamed/part_000, `interface Category`). -/
structure Category where
  id : String
  name : String
  icon : String
  color : String
  is_income : Bool
  is_default : Bool
  user_id : Option String
  household_id : Option String
deriving DecidableEq

/-- Transaction record (src/unnamed/part_000, `interface Transaction`);
amounts are decimals, embedded as rationals. -/
structure Transaction where
  id : String
  amount : ℚ
  description : Option String
  date : Date
  category_id : String
  user_id : String
  household_id : Option String
  is_shared : Bool
deriving DecidableEq

/-- Budget record (src/unnamed/part_000, `interface Budget`). -/
structure Budget where
  id : String
  amount : ℚ
  month : Month
  category_id : String
  user_id : String
  household_id : Option String
  alert_threshold : ℚ
deriving DecidableEq

/-- Derived budget status (src/unnamed/part_000, `interface BudgetStatus`). -/
structure BudgetStatus where
  budget : Budget
  spent : ℚ
  remaining : ℚ
  percentage : ℚ
  is_over_threshold : Bool
  is_over_budget : Bool
deriving DecidableEq

/-- Monthly summary (src/unnamed/part_000, `interface MonthlySummary`). -/
structure MonthlySummary where
  month : Month
  total_income : ℚ
  total_expenses : ℚ
  net : ℚ
  transaction_count : Nat
deriving DecidableEq

/-- Per-category breakdown row (src/unnamed/part_000, `interface CategoryBreakdown`). -/
structure CategoryBreakdown where
  category_id : String
  category_name : String
  total : ℚ
  percentage : ℚ
  transaction_count : Nat
deriving DecidableEq

/-- A spending-trend data point (src/unnamed/part_000, `interface SpendingTrend`);
calendar days are represented by absolute day indices. -/
structure SpendingTrend where
  date : Int
  amount : ℚ
deriving DecidableEq

/-- The owning context of a query: an individual user or a household. -/
inductive Scope
  | user (uid : String)
  | household (hid : String)
deriving DecidableEq

/-! ## Aggregation engine (backend absent; modelled from spec section 4.1) -/

/-- Sum of the amounts of a list of transactions. -/
def txTotal (ts : List Transaction) : ℚ :=
  (ts.map Transaction.amount).sum

/-- The is_income flag of a transaction's category, resolved by id lookup;
categories that do not resolve count as expenses (spec: "others to
total_expenses"). -/
def catFlag (cats : List Category) (cid : String) : Bool :=
  ((cats.find? (fun c => c.id == cid)).map Category.is_income).getD false

/-- Whether a transaction belongs to a scope. -/
def txInScope : Scope → Transaction → Bool
  | Scope.user u, t => t.user_id == u
  | Scope.household h, t => t.household_id == some h

/-- Whether a budget belongs to a scope. -/
def budgetInScope : Scope → Budget → Bool
  | Scope.user u, b => b.user_id == u
  | Scope.household h, b => b.household_id == some h

/-- Whether a date falls within a calendar month. -/
def dateInMonth (d : Date) (m : Month) : Bool :=
  d.year == m.year && d.month == m.month

/-- The transactions of a scope whose date falls within a calendar month. -/
def monthlyTx (ts : List Transaction) (scope : Scope) (m : Month) : List Transaction :=
  ts.filter (fun t => txInScope scope t && dateInMonth t.date m)

/-- Modelled from the spec: `monthlySummary(scope, month)` of the absent
backend — income/expense totals, net and count over the month's
transactions in scope, split by the category's is_income flag. -/
def monthlySummary (ts : List Transaction) (cats : List Category)
    (scope : Scope) (m : Month) : MonthlySummary :=
  let sel := monthlyTx ts scope m
  { month := m
    total_income := txTotal (sel.filter (fun t => catFlag cats t.category_id == true))
    total_expenses := txTotal (sel.filter (fun t => catFlag cats t.category_id == false))
    net := txTotal (sel.filter (fun t => catFlag cats t.category_id == true))
           - txTotal (sel.filter (fun t => catFlag cats t.category_id == false))
    transaction_count := sel.length }

/-- Modelled from the spec: `categoryBreakdown(scope, month, is_income)` of
the absent backend — per matching category the summed total, percentage of
the scope total for that flag (0 when that total is 0) and count, sorted
descending by total. -/
def categoryBreakdown (ts : List Transaction) (cats : List Category)
    (scope : Scope) (m : Month) (flag : Bool) : List CategoryBreakdown :=
  let sel := monthlyTx ts scope m
  let scopeTotal := txTotal (sel.filter (fun t => catFlag cats t.category_id == flag))
  let rows := (cats.filter (fun c => c.is_income == flag)).map (fun c =>
    let cts := sel.filter (fun t => t.category_id == c.id)
    { category_id := c.id
      category_name := c.name
      total := txTotal cts
      percentage := if scopeTotal = 0 then 0 else txTotal cts / scopeTotal * 100
      transaction_count := cts.length })
  rows.insertionSort (fun a b => b.total ≤ a.total)

/-- Modelled from the spec: `budgetStatus(scope, month)` of the absent
backend — for every budget in scope for the month, spent is the sum of the
month's matching-category transactions, remaining = amount − spent,
percentage = spent/amount×100 (0 when amount is 0), and the two flags. -/
def budgetStatus (ts : List Transaction) (bs : List Budget)
    (scope : Scope) (m : Month) : List BudgetStatus :=
  (bs.filter (fun b => budgetInScope scope b && b.month == m)).map (fun b =>
    let spent := txTotal ((monthlyTx ts scope m).filter (fun t => t.category_id == b.category_id))
    let percentage := if b.amount = 0 then 0 else spent / b.amount * 100
    { budget := b
      spent := spent
      remaining := b.amount - spent
      percentage := percentage
      is_over_threshold := decide (b.alert_threshold ≤ percentage)
      is_over_budget := decide ((100 : ℚ) ≤ percentage) })

/-! ## Spending trend (backend absent; modelled from spec section 4.1) -/

/-- A transaction as seen by the trend computation: its calendar day is an
absolute day index. -/
structure DayTransaction where
  day : Int
  amount : ℚ
  category_id : String
  user_id : String
  household_id : Option String
deriving DecidableEq

/-- Whether a day-indexed transaction belongs to a scope. -/
def dayTxInScope : Scope → DayTransaction → Bool
  | Scope.user u, t => t.user_id == u
  | Scope.household h, t => t.household_id == some h

/-- Sum of the amounts of day-indexed transactions. -/
def dayTotal (ts : List DayTransaction) : ℚ :=
  (ts.map DayTransaction.amount).sum

/-- The calendar day shown at index `i` of a trailing window of `days` days
ending at `today`: index 0 is the oldest day. -/
def trendDay (today : Int) (days : Nat) (i : Nat) : Int :=
  today - ((days : Int) - 1) + i

/-- Modelled from the spec: `spendingTrend(scope, days)` of the absent
backend — one data point per calendar day of the trailing window ending
today, oldest first, amount = sum of that day's expense transactions. -/
def spendingTrend (ts : List DayTransaction) (cats : List Category)
    (scope : Scope) (today : Int) (days : Nat) : List SpendingTrend :=
  (List.range days).map (fun i =>
    { date := trendDay today days i
      amount := dayTotal (ts.filter (fun t =>
        dayTxInScope scope t && t.day == trendDay today days i
          && catFlag cats t.category_id == false)) })

/-! ## Import mapper (backend absent; modelled from spec section 4.2) -/

/-- The column mapping selected in src/frontend/src/pages/ImportCSV.tsx and
sent to the confirm endpoint. -/
structure ColumnMapping where
  dateColumn : String
  amountColumn : String
  descriptionColumn : Option String
  categoryId : String
  dateFormat : String
  negateAmounts : Bool
deriving DecidableEq

/-- A transaction-creation candidate produced from one CSV row. -/
structure CandidateTx where
  date : Date
  amount : ℚ
  categoryId : String
  description : Option String
deriving DecidableEq

/-- A CSV data row: column name to cell value. -/
abbrev Row := List (String × String)

/-- Modelled from the spec: `mapRow` of the absent backend Import Mapper —
parse the date with the given format and the amount as a decimal (either
failure is a ParseError), negate the amount if `negateAmounts` is set,
attach category and optional description.  The date and amount parsers are
abstracted as parameters. -/
def mapRow (parseDate : String → String → Option Date) (parseAmount : String → Option ℚ)
    (m : ColumnMapping) (row : Row) : Except String CandidateTx :=
  match parseDate m.dateFormat ((row.lookup m.dateColumn).getD "") with
  | none => Except.error ("unparseable date " ++ (row.lookup m.dateColumn).getD "")
  | some d =>
    match parseAmount ((row.lookup m.amountColumn).getD "") with
    | none => Except.error ("unparseable amount " ++ (row.lookup m.amountColumn).getD "")
    | some a =>
      Except.ok
        { date := d
          amount := if m.negateAmounts then -a else a
          categoryId := m.categoryId
          description := m.descriptionColumn.bind (fun c => row.lookup c) }

/-- Whether `mapRow` succeeds on a row. -/
def mapRowOk (parseDate : String → String → Option Date) (parseAmount : String → Option ℚ)
    (m : ColumnMapping) (row : Row) : Bool :=
  match mapRow parseDate parseAmount m row with
  | Except.ok _ => true
  | Except.error _ => false

/-- Result of a CSV confirm call (src/frontend/src/pages/ImportCSV.tsx
`result` state), plus the persisted candidate transactions. -/
structure ImportResult where
  imported : Nat
  skipped : Nat
  errors : List String
  txs : List CandidateTx
deriving DecidableEq

/-- Modelled from the spec: the row loop of `confirm` — apply `mapRow` to
every data row starting at row number `idx`; a failing row is counted as
skipped with a row-identifying error message and the loop continues. -/
def confirmFrom (parseDate : String → String → Option Date) (parseAmount : String → Option ℚ)
    (m : ColumnMapping) (idx : Nat) : List Row → ImportResult
  | [] => { imported := 0, skipped := 0, errors := [], txs := [] }
  | r :: rs =>
    let rest := confirmFrom parseDate parseAmount m (idx + 1) rs
    match mapRow parseDate parseAmount m r with
    | Except.ok tx =>
      { rest with imported := rest.imported + 1, txs := tx :: rest.txs }
    | Except.error e =>
      { rest with skipped := rest.skipped + 1
                  errors := ("row " ++ toString idx ++ ": " ++ e) :: rest.errors }

/-- Modelled from the spec: `confirm(file, mapping)` of the absent backend —
best-effort import of all data rows, numbered from 1. -/
def confirm (parseDate : String → String → Option Date) (parseAmount : String → Option ℚ)
    (m : ColumnMapping) (rows : List Row) : ImportResult :=
  confirmFrom parseDate parseAmount m 1 rows

/-! ## Budget creation and uniqueness (backend absent; modelled from spec) -/

/-- The owner scope of a budget: its household when set, else its user. -/
inductive Owner
  | user (uid : String)
  | household (hid : String)
deriving DecidableEq

/-- The owner of a budget record. -/
def budgetOwner (b : Budget) : Owner :=
  match b.household_id with
  | some h => Owner.household h
  | none => Owner.user b.user_id

/-- The (category, month, owner) uniqueness key of a budget. -/
def budgetKey (b : Budget) : String × Month × Owner :=
  (b.category_id, b.month, budgetOwner b)

/-- Modelled from the spec: the budget-creation endpoint of the absent
backend — creating a second budget for the same (category, month, owner)
as an existing one is rejected. -/
def createBudget (s : List Budget) (b : Budget) : Except String (List Budget) :=
  if s.any (fun x => decide (budgetKey x = budgetKey b)) then
    Except.error "budget already exists for this category and month"
  else
    Except.ok (b :: s)

/-- The stored budgets after a create attempt: unchanged when rejected. -/
def applyCreate (s : List Budget) (b : Budget) : List Budget :=
  match createBudget s b with
  | Except.ok s2 => s2
  | Except.error _ => s

/-- Deleting a budget by id. -/
def deleteBudget (s : List Budget) (id : String) : List Budget :=
  s.filter (fun b => !(b.id == id))

/-- Store states reachable from the empty store by create attempts and
deletes. -/
inductive ReachableStore : List Budget → Prop
  | empty : ReachableStore []
  | create (b : Budget) {s : List Budget} :
      ReachableStore s → ReachableStore (applyCreate s b)
  | delete (id : String) {s : List Budget} :
      ReachableStore s → ReachableStore (deleteBudget s id)

/-- At most one budget per (category, month, owner) scope. -/
def UniqueBudgets (s : List Budget) : Prop :=
  s.Pairwise (fun a b => budgetKey a ≠ budgetKey b)

/-! ## Client auth store (src/unnamed/part_006) and startup (src/unnamed/part_002) -/

/-- User record (src/unnamed/part_000, `interface User`). -/
structure User where
  id : String
  email : String
  name : String
deriving DecidableEq

/-- The zustand auth store state (src/unnamed/part_006, `AuthState`). -/
structure AuthState where
  token : Option String
  user : Option User
  isLoading : Bool
  error : Option String
deriving DecidableEq

/-- `logout` (src/unnamed/part_006 lines 50-52): clears token, user and
error. -/
def logout (s : AuthState) : AuthState :=
  { s with token := none, user := none, error := none }

/-- `loadUser` (src/unnamed/part_006 lines 54-68): no token means only the
loading flag is cleared; with a token, a successful `auth.me` stores the
user, and any failure clears token and user. `fetchMe` stands for the
`auth.me` API call. -/
def loadUser (fetchMe : String → Except String User) (s : AuthState) : AuthState :=
  match s.token with
  | none => { s with isLoading := false }
  | some tk =>
    match fetchMe tk with
    | Except.ok u => { s with user := some u, isLoading := false }
    | Except.error _ => { s with token := none, user := none, isLoading := false }

/-- State rehydrated from persisted storage: only the token is persisted
(src/unnamed/part_006, `partialize`); the other fields take their initial
values. -/
def rehydrate (persistedToken : Option String) : AuthState :=
  { token := persistedToken, user := none, isLoading := false, error := none }

/-- Application startup (src/unnamed/part_002 lines 45-49): `loadUser` is
invoked exactly when a token is present in the rehydrated state. -/
def appStartup (fetchMe : String → Except String User) (persistedToken : Option String) : AuthState :=
  let s := rehydrate persistedToken
  if s.token.isSome then loadUser fetchMe s else s

/-! ## HTTP request helper (src/unnamed/part_000 lines 7-36) -/

/-- A parsed JSON response body, restricted to what `request` inspects: the
string value of the `detail` field when present, plus opaque remaining
payload. -/
structure JsonBody where
  detail : Option String
  raw : String
deriving DecidableEq

/-- An HTTP response as `request` sees it; `jsonBody = none` means the body
does not parse as JSON. -/
structure HttpResponse where
  ok : Bool
  status : Nat
  jsonBody : Option JsonBody
deriving DecidableEq

/-- Outcome of `request`: a returned body (none for 204), a thrown `Error`
with a message, or the rejection of `response.json()` on an ok response. -/
inductive RequestOutcome
  | success (body : Option JsonBody)
  | thrown (message : String)
  | jsonParseFailure
deriving DecidableEq

/-- The thrown message for a non-ok response (src/unnamed/part_000 lines
26-29): `error.detail || 'Request failed'`, where a failed JSON parse is
replaced by a body whose detail is 'Request failed'; an empty-string
detail is falsy and also falls back. -/
def errorMessage (r : HttpResponse) : String :=
  match r.jsonBody with
  | none => "Request failed"
  | some b =>
    match b.detail with
    | none => "Request failed"
    | some d => if d == "" then "Request failed" else d

/-- The `request` helper (src/unnamed/part_000 lines 7-36): throw on non-ok
responses, return null on 204, otherwise return the parsed JSON body. -/
def request (r : HttpResponse) : RequestOutcome :=
  if !r.ok then RequestOutcome.thrown (errorMessage r)
  else if r.status == 204 then RequestOutcome.success none
  else
    match r.jsonBody with
    | some b => RequestOutcome.success (some b)
    | none => RequestOutcome.jsonParseFailure

/-! ## Theorems -/

/-- Claim C8: the client auth store follows the stated token lifecycle — on
startup the persisted user is loaded exactly when a stored token is
present (without a token the state stays the freshly rehydrated one for
every backend behaviour; with a token a successful fetch stores the user),
and logout from any state sets token and user to null. -/
theorem auth_token_lifecycle (fetchMe : String → Except String User) :
    ((appStartup fetchMe none).user = none ∧ appStartup fetchMe none = rehydrate none)
      ∧ (∀ tk u, fetchMe tk = Except.ok u →
          (appStartup fetchMe (some tk)).user = some u
            ∧ (appStartup fetchMe (some tk)).token = some tk)
      ∧ (∀ s : AuthState, (logout s).token = none ∧ (logout s).user = none) := by
  refine ⟨⟨rfl, rfl⟩, ?_, fun s => ⟨rfl, rfl⟩⟩
  intro tk u h
  constructor <;> simp [appStartup, rehydrate, loadUser, h]

/-- Witness for C8 at concrete inputs. -/
theorem auth_token_lifecycle_witness :
    (appStartup (fun _ => Except.error "offline") none).user = none
      ∧ (appStartup (fun tk => Except.ok { id := "1", email := "a@b.c", name := tk }) (some "tok")).user
          = some { id := "1", email := "a@b.c", name := "tok" }
      ∧ (logout { token := some "tok", user := none, isLoading := true, error := some "e" }).token = none :=
  ⟨(auth_token_lifecycle (fun _ => Except.error "offline")).1.1,
   ((auth_token_lifecycle (fun tk => Except.ok { id := "1", email := "a@b.c", name := tk })).2.1
      "tok" { id := "1", email := "a@b.c", name := "tok" } rfl).1,
   ((auth_token_lifecycle (fun _ => Except.error "offline")).2.2
      { token := some "tok", user := none, isLoading := true, error := some "e" }).1⟩

/-- Claim C10: when loadUser runs with a stored token and the user fetch
fails, the store clears both token and user and ends the loading state. -/
theorem loadUser_failure_clears_session (fetchMe : String → Except String User)
    (s : AuthState) (tk e : String)
    (htk : s.token = some tk) (hf : fetchMe tk = Except.error e) :
    (loadUser fetchMe s).token = none ∧ (loadUser fetchMe s).user = none
      ∧ (loadUser fetchMe s).isLoading = false := by
  simp [loadUser, htk, hf]

/-- Witness for C10 at concrete inputs. -/
theorem loadUser_failure_clears_session_witness :
    (loadUser (fun _ => Except.error "expired")
        { token := some "t", user := none, isLoading := true, error := none }).token = none
      ∧ (loadUser (fun _ => Except.error "expired")
          { token := some "t", user := none, isLoading := true, error := none }).user = none
      ∧ (loadUser (fun _ => Except.error "expired")
          { token := some "t", user := none, isLoading := true, error := none }).isLoading = false :=
  loadUser_failure_clears_session (fun _ => Except.error "expired")
    { token := some "t", user := none, isLoading := true, error := none } "t" "expired" rfl rfl

/-- Claim C9 (counterexample): for a non-ok response whose JSON body has
detail = "", the thrown message is not the body's detail field — the code
falls back to "Request failed" because the empty string is falsy in
`error.detail || 'Request failed'`. -/
theorem request_detail_counterexample :
    request { ok := false, status := 400, jsonBody := some { detail := some "", raw := "" } }
        = RequestOutcome.thrown "Request failed"
      ∧ request { ok := false, status := 400, jsonBody := some { detail := some "", raw := "" } }
        ≠ RequestOutcome.thrown "" := by
  constructor
  · rfl
  · decide

/-- Claim C9 (amended): a non-ok response always throws; the message is the
body's detail field when that is a nonempty string, and "Request failed"
when the body is not JSON, has no detail, or its detail is the empty
string; a 204 response returns null; otherwise the parsed JSON body is
returned. -/
theorem request_error_handling (r : HttpResponse) :
    (r.ok = false → ∀ d, r.jsonBody.bind JsonBody.detail = some d → d ≠ "" →
        request r = RequestOutcome.thrown d)
      ∧ (r.ok = false →
          (r.jsonBody = none ∨ r.jsonBody.bind JsonBody.detail = none
            ∨ r.jsonBody.bind JsonBody.detail = some "") →
          request r = RequestOutcome.thrown "Request failed")
      ∧ (r.ok = true → r.status = 204 → request r = RequestOutcome.success none)
      ∧ (r.ok = true → r.status ≠ 204 → ∀ b, r.jsonBody = some b →
          request r = RequestOutcome.success (some b)) := by
  obtain ⟨ok, status, body⟩ := r
  refine ⟨?_, ?_, ?_, ?_⟩
  · rintro rfl d hd hne
    rcases body with _ | ⟨bd, braw⟩
    · simp at hd
    · simp only [Option.bind_some] at hd
      subst hd
      simp [request, errorMessage, hne]
  · rintro rfl h
    rcases body with _ | ⟨bd, braw⟩
    · simp [request, errorMessage]
    · rcases h with h | h | h
      · simp at h
      · simp only [Option.bind_some] at h
        subst h
        simp [request, errorMessage]
      · simp only [Option.bind_some] at h
        subst h
        simp [request, errorMessage]
  · rintro rfl h204
    subst h204
    simp [request]
  · rintro rfl hne b hb
    subst hb
    simp [request, hne]

/-- Witness for the amended C9 at concrete inputs. -/
theorem request_error_handling_witness :
    request { ok := false, status := 500, jsonBody := some { detail := some "boom", raw := "" } }
        = RequestOutcome.thrown "boom"
      ∧ request { ok := false, status := 500, jsonBody := none }
          = RequestOutcome.thrown "Request failed"
      ∧ request { ok := true, status := 204, jsonBody := none }
          = RequestOutcome.success none
      ∧ request { ok := true, status := 200, jsonBody := some { detail := none, raw := "d" } }
          = RequestOutcome.success (some { detail := none, raw := "d" }) :=
  ⟨(request_error_handling { ok := false, status := 500, jsonBody := some { detail := some "boom", raw := "" } }).1
      rfl "boom" rfl (by decide),
   (request_error_handling { ok := false, status := 500, jsonBody := none }).2.1 rfl (Or.inl rfl),
   (request_error_handling { ok := true, status := 204, jsonBody := none }).2.2.1 rfl rfl,
   (request_error_handling { ok := true, status := 200, jsonBody := some { detail := none, raw := "d" } }).2.2.2
      rfl (by decide) { detail := none, raw := "d" } rfl⟩

/-- Claim C5: with the same parsers, columns and row, negateAmounts = true
produces exactly the negation of the amount produced with
negateAmounts = false, and rows that fail to parse fail identically. -/
theorem negate_amounts_flips_sign (parseDate : String → String → Option Date)
    (parseAmount : String → Option ℚ) (dc ac : String) (desc : Option String)
    (cid fmt : String) (row : Row) :
    mapRow parseDate parseAmount
        { dateColumn := dc, amountColumn := ac, descriptionColumn := desc,
          categoryId := cid, dateFormat := fmt, negateAmounts := true } row
      = (mapRow parseDate parseAmount
          { dateColumn := dc, amountColumn := ac, descriptionColumn := desc,
            categoryId := cid, dateFormat := fmt, negateAmounts := false } row).map
          (fun tx => { tx with amount := -tx.amount }) := by
  rcases h1 : parseDate fmt ((row.lookup dc).getD "") with _ | d <;>
    rcases h2 : parseAmount ((row.lookup ac).getD "") with _ | a <;>
      simp [mapRow, h1, h2, Except.map]

/-- Counting lemma for the confirm row loop, for any starting row number. -/
theorem confirmFrom_counts (parseDate : String → String → Option Date)
    (parseAmount : String → Option ℚ) (m : ColumnMapping) (rows : List Row) :
    ∀ idx,
      (confirmFrom parseDate parseAmount m idx rows).imported
          = (rows.filter (fun r => mapRowOk parseDate parseAmount m r)).length
        ∧ (confirmFrom parseDate parseAmount m idx rows).skipped
          = (rows.filter (fun r => !(mapRowOk parseDate parseAmount m r))).length
        ∧ (confirmFrom parseDate parseAmount m idx rows).errors.length
          = (confirmFrom parseDate parseAmount m idx rows).skipped := by
  induction rows with
  | nil => intro idx; simp [confirmFrom]
  | cons r rs ih =>
    intro idx
    have h := ih (idx + 1)
    rcases hm : mapRow parseDate parseAmount m r with e | tx <;>
      simp [confirmFrom, hm, mapRowOk, h.1, h.2.1, h.2.2, List.filter_cons]

/-- A sample date parser for the concrete import run: accepts the single
literal "15.01.2024". -/
def sampleParseDate (fmt s : String) : Option Date :=
  if fmt == "%d.%m.%Y" && s == "15.01.2024" then
    some { year := 2024, month := 1, day := 15 }
  else none

/-- A sample amount parser for the concrete import run: accepts "10" and
"250". -/
def sampleParseAmount (s : String) : Option ℚ :=
  if s == "10" then some 10 else if s == "250" then some 250 else none

/-- The sample column mapping used in the concrete import run. -/
def sampleMapping : ColumnMapping :=
  { dateColumn := "Datum", amountColumn := "Iznos", descriptionColumn := some "Opis",
    categoryId := "cat-food", dateFormat := "%d.%m.%Y", negateAmounts := false }

/-- A ten-row sample file in which rows 3 and 7 have unparseable dates. -/
def sampleRows : List Row :=
  [[("Datum", "15.01.2024"), ("Iznos", "10"), ("Opis", "r1")],
   [("Datum", "15.01.2024"), ("Iznos", "250"), ("Opis", "r2")],
   [("Datum", "not-a-date"), ("Iznos", "10"), ("Opis", "r3")],
   [("Datum", "15.01.2024"), ("Iznos", "10"), ("Opis", "r4")],
   [("Datum", "15.01.2024"), ("Iznos", "10"), ("Opis", "r5")],
   [("Datum", "15.01.2024"), ("Iznos", "250"), ("Opis", "r6")],
   [("Datum", "??"), ("Iznos", "10"), ("Opis", "r7")],
   [("Datum", "15.01.2024"), ("Iznos", "10"), ("Opis", "r8")],
   [("Datum", "15.01.2024"), ("Iznos", "10"), ("Opis", "r9")],
   [("Datum", "15.01.2024"), ("Iznos", "250"), ("Opis", "r10")]]

/-- Claim C2: confirm applies mapRow to every data row — imported counts
the rows that map, skipped counts the rows that fail (so one bad row never
blocks the rest), imported + skipped equals the number of data rows and
one error is recorded per skipped row; the sample ten-row file with two
unparseable dates yields imported = 8, skipped = 2, errors.length = 2. -/
theorem confirm_partial_import (parseDate : String → String → Option Date)
    (parseAmount : String → Option ℚ) (m : ColumnMapping) (rows : List Row) :
    ((confirm parseDate parseAmount m rows).imported
        = (rows.filter (fun r => mapRowOk parseDate parseAmount m r)).length
      ∧ (confirm parseDate parseAmount m rows).skipped
        = (rows.filter (fun r => !(mapRowOk parseDate parseAmount m r))).length
      ∧ (confirm parseDate parseAmount m rows).imported
          + (confirm parseDate parseAmount m rows).skipped = rows.length
      ∧ (confirm parseDate parseAmount m rows).errors.length
        = (confirm parseDate parseAmount m rows).skipped)
    ∧ ((confirm sampleParseDate sampleParseAmount sampleMapping sampleRows).imported = 8
      ∧ (confirm sampleParseDate sampleParseAmount sampleMapping sampleRows).skipped = 2
      ∧ (confirm sampleParseDate sampleParseAmount sampleMapping sampleRows).errors.length = 2) := by
  have h := confirmFrom_counts parseDate parseAmount m rows 1
  refine ⟨⟨h.1, h.2.1, ?_, h.2.2⟩, by decide⟩
  show (confirmFrom parseDate parseAmount m 1 rows).imported
      + (confirmFrom parseDate parseAmount m 1 rows).skipped = rows.length
  rw [h.1, h.2.1]
  exact (List.length_eq_length_filter_add (fun r => mapRowOk parseDate parseAmount m r)).symm

/-- Claim C1: every status produced by budgetStatus has spent equal to the
sum of the month's in-scope transactions of the budget's category (0 when
none match), remaining = amount − spent, and
percentage = spent/amount × 100 with percentage = 0 when amount = 0. -/
theorem budgetStatus_fields (ts : List Transaction) (bs : List Budget)
    (scope : Scope) (m : Month) (st : BudgetStatus)
    (hmem : st ∈ budgetStatus ts bs scope m) :
    st.spent = txTotal ((monthlyTx ts scope m).filter
        (fun t => t.category_id == st.budget.category_id))
      ∧ st.remaining = st.budget.amount - st.spent
      ∧ st.percentage
        = (if st.budget.amount = 0 then 0 else st.spent / st.budget.amount * 100)
      ∧ (st.budget.amount = 0 → st.percentage = 0)
      ∧ ((monthlyTx ts scope m).filter (fun t => t.category_id == st.budget.category_id) = [] →
          st.spent = 0) := by
  simp only [budgetStatus, List.mem_map, List.mem_filter] at hmem
  obtain ⟨b, hb, rfl⟩ := hmem
  refine ⟨rfl, rfl, rfl, ?_, ?_⟩
  · intro h0
    have hb0 : b.amount = 0 := h0
    exact if_pos hb0
  · intro hnil
    have hb1 : (monthlyTx ts scope m).filter (fun t => t.category_id == b.category_id) = [] := hnil
    simp [hb1, txTotal]

/-- The budget used by the concrete budget-status runs. -/
def witnessBudget : Budget :=
  { id := "b1", amount := 100, month := { year := 2024, month := 5 },
    category_id := "c1", user_id := "u", household_id := none, alert_threshold := 80 }

/-- A transaction of 30 in the budget's category and month. -/
def witnessTx : Transaction :=
  { id := "t1", amount := 30, description := none,
    date := { year := 2024, month := 5, day := 10 },
    category_id := "c1", user_id := "u", household_id := none, is_shared := false }

/-- The status derived for witnessBudget against witnessTx. -/
def witnessStatus : BudgetStatus :=
  { budget := witnessBudget, spent := 30, remaining := 70, percentage := 30,
    is_over_threshold := false, is_over_budget := false }

/-- Witness for C1 at concrete inputs. -/
theorem budgetStatus_fields_witness :
    witnessStatus.spent = txTotal ((monthlyTx [witnessTx] (Scope.user "u") { year := 2024, month := 5 }).filter
        (fun t => t.category_id == witnessStatus.budget.category_id))
      ∧ witnessStatus.remaining = witnessStatus.budget.amount - witnessStatus.spent
      ∧ witnessStatus.percentage
        = (if witnessStatus.budget.amount = 0 then 0
           else witnessStatus.spent / witnessStatus.budget.amount * 100) := by
  have hmem : witnessStatus ∈ budgetStatus [witnessTx] [witnessBudget] (Scope.user "u") { year := 2024, month := 5 } := by
    have heq : budgetStatus [witnessTx] [witnessBudget] (Scope.user "u") { year := 2024, month := 5 } = [witnessStatus] := by
      simp [budgetStatus, monthlyTx, txInScope, dateInMonth, txTotal,
        witnessBudget, witnessTx, witnessStatus, budgetInScope]
      norm_num
    rw [heq]
    exact List.mem_singleton_self witnessStatus
  have h := budgetStatus_fields [witnessTx] [witnessBudget] (Scope.user "u")
    { year := 2024, month := 5 } witnessStatus hmem
  exact ⟨h.1, h.2.1, h.2.2.1⟩

/-- Claim C4: for budgets whose alert threshold is at most 100, a derived
status that is over budget is also over threshold. -/
theorem over_budget_implies_over_threshold (ts : List Transaction) (bs : List Budget)
    (scope : Scope) (m : Month) (st : BudgetStatus)
    (hmem : st ∈ budgetStatus ts bs scope m)
    (hthr : st.budget.alert_threshold ≤ 100) (hob : st.is_over_budget = true) :
    st.is_over_threshold = true := by
  simp only [budgetStatus, List.mem_map, List.mem_filter] at hmem
  obtain ⟨b, hb, rfl⟩ := hmem
  simp only [decide_eq_true_eq] at hob ⊢
  exact le_trans hthr hob

/-- A transaction of 150 that puts witnessBudget over budget. -/
def witnessOverTx : Transaction :=
  { id := "t2", amount := 150, description := none,
    date := { year := 2024, month := 5, day := 11 },
    category_id := "c1", user_id := "u", household_id := none, is_shared := false }

/-- The over-budget status derived for witnessBudget against witnessOverTx. -/
def witnessOverStatus : BudgetStatus :=
  { budget := witnessBudget, spent := 150, remaining := -50, percentage := 150,
    is_over_threshold := true, is_over_budget := true }

/-- Witness for C4 at concrete inputs. -/
theorem over_budget_implies_over_threshold_witness :
    witnessOverStatus.is_over_threshold = true := by
  have hmem : witnessOverStatus ∈ budgetStatus [witnessOverTx] [witnessBudget] (Scope.user "u") { year := 2024, month := 5 } := by
    have heq : budgetStatus [witnessOverTx] [witnessBudget] (Scope.user "u") { year := 2024, month := 5 } = [witnessOverStatus] := by
      simp [budgetStatus, monthlyTx, txInScope, dateInMonth, txTotal,
        witnessBudget, witnessOverTx, witnessOverStatus, budgetInScope]
      norm_num
    rw [heq]
    exact List.mem_singleton_self witnessOverStatus
  exact over_budget_implies_over_threshold [witnessOverTx] [witnessBudget] (Scope.user "u")
    { year := 2024, month := 5 } witnessOverStatus hmem (by norm_num [witnessOverStatus, witnessBudget]) rfl

/-- Claim C6: every reachable store holds at most one budget per
(category, month, owner) key, and creating a second budget with the key of
an existing one is rejected and leaves the stored budgets unchanged. -/
theorem budget_uniqueness (s : List Budget) (hs : ReachableStore s) :
    UniqueBudgets s
      ∧ ∀ b b2, b2 ∈ s → budgetKey b2 = budgetKey b →
          createBudget s b = Except.error "budget already exists for this category and month"
            ∧ applyCreate s b = s := by
  constructor
  · induction hs with
    | empty => exact List.Pairwise.nil
    | @create b s2 hs ih =>
      by_cases hany : (s2.any fun x => decide (budgetKey x = budgetKey b)) = true
      · simpa [applyCreate, createBudget, hany] using ih
      · have hall : ∀ x ∈ s2, budgetKey b ≠ budgetKey x := by
          intro x hx heq
          exact hany (List.any_eq_true.mpr ⟨x, hx, by simp [heq]⟩)
        simpa [applyCreate, createBudget, hany, UniqueBudgets, List.pairwise_cons] using ⟨hall, ih⟩
    | @delete id s2 hs ih =>
      exact List.Pairwise.sublist (List.filter_sublist _) ih
  · intro b b2 hmem hkey
    have hany : (s.any fun x => decide (budgetKey x = budgetKey b)) = true :=
      List.any_eq_true.mpr ⟨b2, hmem, by simp [hkey]⟩
    exact ⟨by simp [createBudget, hany], by simp [applyCreate, createBudget, hany]⟩

/-- Witness for C6 at a concrete reachable one-budget store. -/
theorem budget_uniqueness_witness :
    UniqueBudgets [witnessBudget]
      ∧ createBudget [witnessBudget] witnessBudget
          = Except.error "budget already exists for this category and month"
      ∧ applyCreate [witnessBudget] witnessBudget = [witnessBudget] := by
  have hreach : ReachableStore [witnessBudget] := by
    have h := ReachableStore.create witnessBudget ReachableStore.empty
    simpa [applyCreate, createBudget] using h
  have h := budget_uniqueness [witnessBudget] hreach
  have h2 := h.2 witnessBudget witnessBudget (List.mem_singleton_self witnessBudget) rfl
  exact ⟨h.1, h2.1, h2.2⟩

/-- Claim C7: for a positive number of days, spendingTrend yields exactly
that many points; the point at index i carries the window day
trendDay today days i — strictly increasing in i, ending at today, so the
sequence is ordered oldest first — and its amount is the sum of that day's
in-scope expense transactions, 0 when there are none. -/
theorem spendingTrend_window (ts : List DayTransaction) (cats : List Category)
    (scope : Scope) (today : Int) (days : Nat) (hd : 0 < days) :
    (spendingTrend ts cats scope today days).length = days
      ∧ (∀ i, i < days →
          (spendingTrend ts cats scope today days)[i]? =
            some { date := trendDay today days i
                   amount := dayTotal (ts.filter (fun t =>
                     dayTxInScope scope t && t.day == trendDay today days i
                       && catFlag cats t.category_id == false)) })
      ∧ (∀ i j, i < j → j < days → trendDay today days i < trendDay today days j)
      ∧ (∀ i, i < days →
          ts.filter (fun t => dayTxInScope scope t && t.day == trendDay today days i
              && catFlag cats t.category_id == false) = [] →
          (spendingTrend ts cats scope today days)[i]? =
            some { date := trendDay today days i, amount := 0 })
      ∧ trendDay today days (days - 1) = today := by
  refine ⟨by simp [spendingTrend], ?_, ?_, ?_, ?_⟩
  · intro i hi
    simp [spendingTrend, List.getElem?_map, List.getElem?_range, hi]
  · intro i j hij hj
    simp only [trendDay]
    omega
  · intro i hi hnil
    have hpt : (spendingTrend ts cats scope today days)[i]? =
        some { date := trendDay today days i
               amount := dayTotal (ts.filter (fun t =>
                 dayTxInScope scope t && t.day == trendDay today days i
                   && catFlag cats t.category_id == false)) } := by
      simp [spendingTrend, List.getElem?_map, List.getElem?_range, hi]
    rw [hpt, hnil]
    simp [dayTotal]
  · simp only [trendDay]
    omega

/-- Witness for C7 at a concrete three-day window. -/
theorem spendingTrend_window_witness :
    (spendingTrend [] [] (Scope.user "u") 10 3).length = 3
      ∧ trendDay 10 3 (3 - 1) = 10 :=
  ⟨(spendingTrend_window [] [] (Scope.user "u") 10 3 (by norm_num)).1,
   (spendingTrend_window [] [] (Scope.user "u") 10 3 (by norm_num)).2.2.2.2⟩

/-- Splitting the total of a filtered cons. -/
theorem txTotal_filter_cons (p : Transaction → Bool) (t : Transaction) (l : List Transaction) :
    txTotal ((t :: l).filter p) = (if p t then t.amount else 0) + txTotal (l.filter p) := by
  cases hp : p t <;> simp [txTotal, List.filter_cons, hp]

/-- In a category list with distinct ids containing cid, the indicator
summand over the flag-filtered categories picks out exactly the category
cid resolves to. -/
theorem indicator_sum (cats : List Category) (cid : String) (a : ℚ) (fl : Bool)
    (hnd : (cats.map Category.id).Nodup) (hmem : cid ∈ cats.map Category.id) :
    ((cats.filter (fun c => c.is_income == fl)).map
        (fun c => if cid == c.id then a else 0)).sum
      = if catFlag cats cid == fl then a else 0 := by
  induction cats with
  | nil => simp at hmem
  | cons c cs ih =>
    simp only [List.map_cons, List.nodup_cons] at hnd
    by_cases hc : cid = c.id
    · have hz : ((cs.filter (fun c2 => c2.is_income == fl)).map
          (fun c2 => if c.id = c2.id then a else 0)).sum = 0 := by
        apply List.sum_eq_zero
        intro x hx
        simp only [List.mem_map] at hx
        obtain ⟨c2, hc2, rfl⟩ := hx
        have hc2mem : c2 ∈ cs := List.mem_of_mem_filter hc2
        have hne : ¬(c.id = c2.id) := by
          intro h
          apply hnd.1
          rw [h]
          exact List.mem_map_of_mem Category.id hc2mem
        simp [hne]
      have hcat : catFlag (c :: cs) cid = c.is_income := by
        simp [catFlag, hc]
      rw [hcat]
      by_cases hfl : c.is_income = fl
      · simp [List.filter_cons, hfl, hz, hc]
      · simp [List.filter_cons, hfl, hz, hc]
    · have hcat : catFlag (c :: cs) cid = catFlag cs cid := by
        simp [catFlag, Ne.symm hc]
      have hmem2 : cid ∈ cs.map Category.id := by
        rcases List.mem_cons.mp hmem with h | h
        · exact absurd h hc
        · exact h
      rw [hcat, ← ih hnd.2 hmem2]
      by_cases hfl : c.is_income = fl
      · simp [List.filter_cons, hfl, hc]
      · simp [List.filter_cons, hfl]

/-- Summing per-category filtered totals equals the flag-filtered total
when category ids are distinct and every transaction's category resolves. -/
theorem breakdown_total_sum (cats : List Category) (fl : Bool)
    (hnd : (cats.map Category.id).Nodup) :
    ∀ l : List Transaction, (∀ t ∈ l, t.category_id ∈ cats.map Category.id) →
      ((cats.filter (fun c => c.is_income == fl)).map
          (fun c => txTotal (l.filter (fun t => t.category_id == c.id)))).sum
        = txTotal (l.filter (fun t => catFlag cats t.category_id == fl)) := by
  intro l
  induction l with
  | nil =>
    intro _
    show _ = (0 : ℚ)
    apply List.sum_eq_zero
    intro x hx
    simp only [List.mem_map] at hx
    obtain ⟨c, _, rfl⟩ := hx
    simp [txTotal]
  | cons t l ih =>
    intro hall
    have hmem := hall t (List.mem_cons_self t l)
    have hrest : ∀ x ∈ l, x.category_id ∈ cats.map Category.id :=
      fun x hx => hall x (List.mem_cons_of_mem t hx)
    have hsplit : ∀ c : Category,
        txTotal ((t :: l).filter (fun t2 => t2.category_id == c.id))
          = (if t.category_id == c.id then t.amount else 0)
            + txTotal (l.filter (fun t2 => t2.category_id == c.id)) :=
      fun c => txTotal_filter_cons (fun t2 => t2.category_id == c.id) t l
    simp only [hsplit]
    rw [List.sum_map_add]
    rw [indicator_sum cats t.category_id t.amount fl hnd hmem]
    rw [ih hrest]
    rw [txTotal_filter_cons (fun t2 => catFlag cats t2.category_id == fl) t l]

/-- Claim C3: the category-breakdown totals for a flag sum to the matching
monthlySummary total (income when the flag is true, expenses otherwise)
whenever category ids are distinct and every transaction's category
resolves, and net = total_income − total_expenses. -/
theorem breakdown_matches_summary (ts : List Transaction) (cats : List Category)
    (scope : Scope) (m : Month) (flag : Bool)
    (hnd : (cats.map Category.id).Nodup)
    (hall : ∀ t ∈ ts, t.category_id ∈ cats.map Category.id) :
    ((categoryBreakdown ts cats scope m flag).map CategoryBreakdown.total).sum
        = (if flag then (monthlySummary ts cats scope m).total_income
           else (monthlySummary ts cats scope m).total_expenses)
      ∧ (monthlySummary ts cats scope m).net
        = (monthlySummary ts cats scope m).total_income
            - (monthlySummary ts cats scope m).total_expenses := by
  refine ⟨?_, rfl⟩
  have hall2 : ∀ t ∈ monthlyTx ts scope m, t.category_id ∈ cats.map Category.id :=
    fun t ht => hall t (List.mem_of_mem_filter ht)
  have hperm : ((categoryBreakdown ts cats scope m flag).map CategoryBreakdown.total).sum
      = ((cats.filter (fun c => c.is_income == flag)).map (fun c =>
          txTotal ((monthlyTx ts scope m).filter (fun t => t.category_id == c.id)))).sum := by
    simp only [categoryBreakdown]
    refine ((List.perm_insertionSort _ _).map CategoryBreakdown.total).sum_eq.trans ?_
    rw [List.map_map]
    rfl
  rw [hperm, breakdown_total_sum cats flag hnd (monthlyTx ts scope m) hall2]
  cases flag
  · rfl
  · rfl

/-- The expense category the witness transactions resolve to. -/
def witnessCategory : Category :=
  { id := "c1", name := "Food", icon := "f", color := "#ffffff", is_income := false,
    is_default := true, user_id := none, household_id := none }

/-- Witness for C3 at concrete inputs. -/
theorem breakdown_matches_summary_witness :
    ((categoryBreakdown [witnessTx] [witnessCategory] (Scope.user "u")
          { year := 2024, month := 5 } false).map CategoryBreakdown.total).sum
        = (monthlySummary [witnessTx] [witnessCategory] (Scope.user "u")
            { year := 2024, month := 5 }).total_expenses
      ∧ (monthlySummary [witnessTx] [witnessCategory] (Scope.user "u")
          { year := 2024, month := 5 }).net
        = (monthlySummary [witnessTx] [witnessCategory] (Scope.user "u")
              { year := 2024, month := 5 }).total_income
            - (monthlySummary [witnessTx] [witnessCategory] (Scope.user "u")
                { year := 2024, month := 5 }).total_expenses := by
  have h := breakdown_matches_summary [witnessTx] [witnessCategory] (Scope.user "u")
    { year := 2024, month := 5 } false (by simp [witnessCategory])
    (by simp [witnessTx, witnessCategory])
  exact ⟨h.1, h.2⟩

end BudgetTracker
